import Mathlib

/-!
Verification of the CBSE board-exams service (Express/Postgres backend).

The development shallowly embeds the authentication / RBAC layer and the
invigilation-assignment validation of the backend source file.  Pure request
handlers become Lean functions over an explicit `ServerState`; the relational
store is modelled, per the specification, as a store offering unique-constraint
and foreign-key enforcement.  The password hasher (`bcrypt`) and the JWT string
codec are kept abstract: definitions are parameterised over a hash function
`bhash : String → String` (bcrypt.compare p h ↔ h = bhash p) and a decoder
`dec : String → RawToken` mapping wire tokens to structured tokens.
-/

namespace CBSE

/-- JavaScript falsiness for an optional string field of a JSON body:
`undefined` and `""` are falsy. -/
def strFalsy : Option String → Bool
  | none => true
  | some s => s = ""

/-- JavaScript falsiness for an optional numeric field: `undefined` and `0`. -/
def natFalsy : Option Nat → Bool
  | none => true
  | some n => n = 0

/-- JavaScript `v || d` for an optional string `v`. -/
def strOr (v : Option String) (d : String) : String :=
  match v with
  | none => d
  | some s => if s = "" then d else s

/-- JavaScript `v || d` for an optional number `v`. -/
def natOr (v : Option Nat) (d : Nat) : Nat :=
  match v with
  | none => d
  | some n => if n = 0 then d else n

/-- Numeric value of a decimal digit character. -/
def digitVal (c : Char) : Nat := c.toNat - 48

/-- Gregorian leap-year rule (as used by the JavaScript `Date` object). -/
def isLeapYear (y : Nat) : Bool :=
  (y % 4 == 0 && y % 100 != 0) || (y % 400 == 0)

/-- Number of days in a month of a given year. -/
def daysInMonth (y m : Nat) : Nat :=
  if m == 2 then (if isLeapYear y then 29 else 28)
  else if m == 4 || m == 6 || m == 9 || m == 11 then 30
  else 31

/-- Source `isValidDate` (backend lines 38-43): the string must match the regex
`^\d{4}-\d{2}-\d{2}$`, `new Date(s)` must parse (the engine rejects impossible
calendar components such as month 13 or Feb 30), and `toISOString()` must
round-trip to the same date, which together amount to: ten characters in the
`YYYY-MM-DD` shape denoting a real proleptic-Gregorian calendar date. -/
def isValidDate (s : String) : Bool :=
  match s.toList with
  | [y1, y2, y3, y4, h1, m1, m2, h2, d1, d2] =>
    y1.isDigit && y2.isDigit && y3.isDigit && y4.isDigit &&
    h1 == '-' && h2 == '-' &&
    m1.isDigit && m2.isDigit && d1.isDigit && d2.isDigit &&
    (let y := 1000 * digitVal y1 + 100 * digitVal y2 + 10 * digitVal y3 + digitVal y4
     let m := 10 * digitVal m1 + digitVal m2
     let d := 10 * digitVal d1 + digitVal d2
     1 ≤ m && m ≤ 12 && 1 ≤ d && d ≤ daysInMonth y m)
  | _ => false

/-- Identity claims embedded in a session token (the object passed to
`jwt.sign` at login, backend lines 783-793). -/
structure Claims where
  userId : Nat
  username : String
  role : String
  examinerId : Option Nat
  schoolId : Option Nat
  deriving Repr, DecidableEq

/-- A wire token after decoding: either not a decodable JWT at all, or a
payload together with the key that signed it and its absolute expiry. -/
inductive RawToken where
  | garbage
  | signed (claims : Claims) (sig : String) (exp : Nat)
  deriving Repr, DecidableEq

/-- `jwt.sign(claims, secret, {expiresIn: '24h'})` at time `now` (seconds). -/
def jwtSign (secret : String) (now : Nat) (c : Claims) : RawToken :=
  .signed c secret (now + 86400)

/-- `jwt.verify(token, secret)` at time `now`: fails on malformed tokens, on a
signature made with a different key, and on an elapsed expiry. -/
def jwtVerify (secret : String) (now : Nat) : RawToken → Except String Claims
  | .garbage => .error "jwt malformed"
  | .signed c sig exp =>
    if sig ≠ secret then .error "invalid signature"
    else if exp ≤ now then .error "jwt expired"
    else .ok c

/-- JavaScript `String.prototype.split` with a single-character separator:
splitting the empty string yields `[""]`, and adjacent separators yield empty
fields. -/
def splitChars (sep : Char) : List Char → List (List Char)
  | [] => [[]]
  | c :: cs =>
    let r := splitChars sep cs
    if c == sep then [] :: r
    else
      match r with
      | [] => [[c]]
      | w :: ws => (c :: w) :: ws

/-- `authHeader && authHeader.split(' ')[1]` (backend lines 47-48). -/
def extractToken (authHeader : Option String) : Option String :=
  authHeader.bind fun h => ((splitChars ' ' h.toList).get? 1).map (fun cs => ⟨cs⟩)

/-- Outcome of the authentication middleware: either the request proceeds with
the resolved identity attached, or a response is sent. -/
inductive AuthResult where
  | accept (user : Claims)
  | reject (status : Nat) (msg : String)
  deriving Repr, DecidableEq

/-- Status code of an `AuthResult`, `none` when the request was accepted. -/
def AuthResult.status : AuthResult → Option Nat
  | .accept _ => none
  | .reject s _ => some s

/-- Source `authenticateToken` middleware (backend lines 46-61): extract the
bearer token; a missing (or falsy) token yields `401 Access token required`;
a token `jwt.verify` rejects — for any reason — yields the one generic
`403 Invalid or expired token` response; otherwise the claims are attached. -/
def authenticateToken (dec : String → RawToken) (secret : String) (now : Nat)
    (authHeader : Option String) : AuthResult :=
  match extractToken authHeader with
  | none => .reject 401 "Access token required"
  | some t =>
    if t = "" then .reject 401 "Access token required"
    else
      match jwtVerify secret now (dec t) with
      | .error _ => .reject 403 "Invalid or expired token"
      | .ok u => .accept u

/-- Source `authorizeRole` middleware (backend lines 64-71).  It reads
`req.user.role`; on a route where the authentication middleware never ran,
`req.user` is `undefined`, the property access throws a `TypeError`, and
Express converts the uncaught exception into a 500 response — modelled by the
`none` case. -/
def authorizeRole (roles : List String) (user : Option Claims) : Option (Nat × String) :=
  match user with
  | none => some (500, "Internal Server Error")
  | some u => if roles.contains u.role then none else some (403, "Insufficient permissions")

/-- A row of the `users` table. -/
structure User where
  userId : Nat
  username : String
  email : String
  passwordHash : String
  role : String
  examinerId : Option Nat
  schoolId : Option Nat
  isActive : Bool
  lastLogin : Option Nat
  deriving Repr, DecidableEq

/-- A row of the `examiners` table (the columns the core touches). -/
structure Examiner where
  examinerId : Nat
  examinerName : String
  schoolId : Option Nat
  subjectId : Option Nat
  email : Option String
  deriving Repr, DecidableEq

/-- A row of the `evaluation_summary` view over `answer_sheets`. -/
structure Sheet where
  answerBookId : String
  studentRollNumber : String
  subjectId : Nat
  examinerId : Nat
  marksAssigned : Option Nat
  deriving Repr, DecidableEq

/-- A row of the `invigilation_assignments` table. -/
structure Assignment where
  assignmentId : Nat
  examinerId : Nat
  schoolId : Nat
  examDate : String
  examSession : String
  subjectId : Option Nat
  deriving Repr, DecidableEq

/-- An `express-session` server-side record, keyed by its cookie id. -/
structure Session where
  sid : Nat
  userId : Nat
  username : String
  role : String
  deriving Repr, DecidableEq

/-- The server-visible state: the relational tables (schools and subjects are
tracked by id, which is all the core consults), the session registry, and the
serial-column counters. -/
structure ServerState where
  users : List User
  examiners : List Examiner
  schools : List Nat
  subjects : List Nat
  sheets : List Sheet
  assignments : List Assignment
  sessions : List Session
  nextUserId : Nat
  nextExaminerId : Nat
  nextAssignmentId : Nat
  nextSchoolId : Nat
  nextSid : Nat
  deriving Repr, DecidableEq

/-- Foreign-key test for an optional `examiner_id` column value. -/
def fkExaminer (st : ServerState) : Option Nat → Bool
  | none => true
  | some e => st.examiners.any (fun x => x.examinerId == e)

/-- Foreign-key test for an optional `school_id` column value. -/
def fkSchool (st : ServerState) : Option Nat → Bool
  | none => true
  | some s => st.schools.contains s

/-- Foreign-key test for an optional `subject_id` column value. -/
def fkSubject (st : ServerState) : Option Nat → Bool
  | none => true
  | some s => st.subjects.contains s

/-- `SELECT * FROM users WHERE username = $1 AND is_active = true` returning
the first row (backend lines 632-638). -/
def getUserByUsername (st : ServerState) (u : String) : Option User :=
  st.users.find? (fun x => x.isActive && x.username == u)

/-- `SELECT * FROM users WHERE email = $1 AND is_active = true` returning the
first row (backend lines 640-646). -/
def getUserByEmail (st : ServerState) (e : String) : Option User :=
  st.users.find? (fun x => x.isActive && x.email == e)

/-- `UPDATE users SET last_login = CURRENT_TIMESTAMP WHERE user_id = $1`. -/
def updateLastLogin (st : ServerState) (uid now : Nat) : ServerState :=
  { st with users := st.users.map fun u =>
      if u.userId == uid then { u with lastLogin := some now } else u }

/-- `SELECT * FROM evaluation_summary WHERE examiner_id = $1`
(`getAnswerSheetsByExaminer`, backend lines 511-517). -/
def getAnswerSheetsByExaminer (st : ServerState) (eid : Nat) : List Sheet :=
  st.sheets.filter (fun s => s.examinerId == eid)

/-- Storage-level `INSERT INTO users ...` (`createUser`, backend lines 620-630):
the store enforces the unique constraints on username and email — against all
rows, active or not —, the role CHECK constraint, and the foreign keys on
`examiner_id` and `school_id`; the stored password is the bcrypt hash. -/
def createUser (bhash : String → String) (st : ServerState)
    (username email password role : String) (examinerId schoolId : Option Nat) :
    Except String (User × ServerState) :=
  if st.users.any (fun u => u.username == username) then .error "duplicate key"
  else if st.users.any (fun u => u.email == email) then .error "duplicate key"
  else if ¬ (role = "admin" ∨ role = "coordinator" ∨ role = "examiner") then
    .error "check constraint violation"
  else if ¬ fkExaminer st examinerId then .error "foreign key violation"
  else if ¬ fkSchool st schoolId then .error "foreign key violation"
  else
    let u : User := ⟨st.nextUserId, username, email, bhash password, role,
                     examinerId, schoolId, true, none⟩
    .ok (u, { st with users := st.users ++ [u], nextUserId := st.nextUserId + 1 })

/-- Storage-level `INSERT INTO examiners ...` (`addExaminer`, backend lines
443-451): foreign keys on `school_id` and `subject_id` are enforced. -/
def addExaminer (st : ServerState) (name : String)
    (schoolId subjectId : Option Nat) (email : Option String) :
    Except String (Examiner × ServerState) :=
  if ¬ fkSchool st schoolId then .error "foreign key violation"
  else if ¬ fkSubject st subjectId then .error "foreign key violation"
  else
    let e : Examiner := ⟨st.nextExaminerId, name, schoolId, subjectId, email⟩
    .ok (e, { st with examiners := st.examiners ++ [e],
                      nextExaminerId := st.nextExaminerId + 1 })

/-- Storage-level `INSERT INTO invigilation_assignments ...`
(`addInvigilationAssignment`, backend lines 544-551): only the foreign keys on
`examiner_id`, `school_id` and `subject_id` are enforced here — the storage
layer is modelled, per the specification, as offering unique-constraint and
foreign-key enforcement only. -/
def addInvigilationAssignment (st : ServerState) (eid sid : Nat)
    (examDate examSession : String) (subjectId : Option Nat) :
    Except String (Assignment × ServerState) :=
  if ¬ st.examiners.any (fun x => x.examinerId == eid) then .error "foreign key violation"
  else if ¬ st.schools.contains sid then .error "foreign key violation"
  else if ¬ fkSubject st subjectId then .error "foreign key violation"
  else
    let a : Assignment := ⟨st.nextAssignmentId, eid, sid, examDate, examSession, subjectId⟩
    .ok (a, { st with assignments := st.assignments ++ [a],
                      nextAssignmentId := st.nextAssignmentId + 1 })

/-- An HTTP response: either a success payload or an error message, each with
its status code. -/
inductive Resp (α : Type) where
  | ok (status : Nat) (body : α)
  | err (status : Nat) (msg : String)
  deriving Repr, DecidableEq

/-- Whether a response is a success response. -/
def Resp.isOk {α : Type} : Resp α → Bool
  | .ok _ _ => true
  | .err _ _ => false

/-- Status code of a response. -/
def Resp.status {α : Type} : Resp α → Nat
  | .ok s _ => s
  | .err s _ => s

/-- The JSON body of `POST /api/auth/register`. -/
structure RegisterBody where
  username : Option String
  email : Option String
  password : Option String
  role : Option String
  examinerId : Option Nat
  schoolId : Option Nat
  deriving Repr, DecidableEq

/-- Source `POST /api/auth/register` handler (backend lines 697-757): required
fields, password length, active-duplicate checks; when the supplied role is
exactly the string `examiner` and no (truthy) examiner id was supplied, a new
examiner row named after the username is inserted first (school defaulting to
id 1, subject hard-coded to 1) and its id linked; then the user row is created
with role `role || 'examiner'`.  Storage errors surface as 500; the examiner
insert is not rolled back when the user insert fails. -/
def register (bhash : String → String) (st : ServerState) (b : RegisterBody) :
    Resp User × ServerState :=
  if strFalsy b.username || strFalsy b.email || strFalsy b.password then
    (.err 400 "Username, email, and password are required", st)
  else
    let username := (b.username).getD ""
    let email := (b.email).getD ""
    let password := (b.password).getD ""
    if password.length < 6 then
      (.err 400 "Password must be at least 6 characters long", st)
    else if (getUserByUsername st username).isSome then
      (.err 400 "Username already exists", st)
    else if (getUserByEmail st email).isSome then
      (.err 400 "Email already registered", st)
    else
      match (if b.role == some "examiner" && natFalsy b.examinerId then
               (addExaminer st username (some (natOr b.schoolId 1)) (some 1)
                   (some email)).map
                 (fun p => (some p.fst.examinerId, p.snd))
             else .ok (b.examinerId, st)) with
      | .error e => (.err 500 ("Registration failed: " ++ e), st)
      | .ok (finalExaminerId, st1) =>
        match createUser bhash st1 username email password (strOr b.role "examiner")
              finalExaminerId b.schoolId with
        | .error e => (.err 500 ("Registration failed: " ++ e), st1)
        | .ok (u, st2) => (.ok 201 u, st2)

/-- Source `POST /api/auth/login` handler (backend lines 759-816): falsy-field
check, active-user lookup by username, bcrypt compare, last-login touch, JWT
mint with the user's claims and a 24-hour expiry, and a fresh session record. -/
def login (bhash : String → String) (secret : String) (now : Nat)
    (st : ServerState) (username password : Option String) :
    Resp (RawToken × User) × ServerState :=
  if strFalsy username || strFalsy password then
    (.err 400 "Username and password are required", st)
  else
    let uname := username.getD ""
    let pw := password.getD ""
    match getUserByUsername st uname with
    | none => (.err 401 "Invalid credentials", st)
    | some user =>
      if user.passwordHash ≠ bhash pw then (.err 401 "Invalid credentials", st)
      else
        let st1 := updateLastLogin st user.userId now
        let tok := jwtSign secret now
          ⟨user.userId, user.username, user.role, user.examinerId, user.schoolId⟩
        let sess : Session := ⟨st1.nextSid, user.userId, user.username, user.role⟩
        (.ok 200 (tok, user),
         { st1 with sessions := st1.sessions ++ [sess], nextSid := st1.nextSid + 1 })

/-- Source `POST /api/auth/logout` handler (backend lines 818-825): the
authentication middleware runs first; on success the caller's server-side
session record is destroyed.  Nothing else in the state is touched. -/
def logout (dec : String → RawToken) (secret : String) (now : Nat)
    (st : ServerState) (authHeader : Option String) (sid : Nat) :
    Resp String × ServerState :=
  match authenticateToken dec secret now authHeader with
  | .reject s m => (.err s m, st)
  | .accept _ =>
    (.ok 200 "Logout successful",
     { st with sessions := st.sessions.filter (fun r => r.sid ≠ sid) })

/-- Express middleware chain `authenticateToken, authorizeRole(roles)` shared
by the role-gated routes: authentication first, then the role check, then the
handler with the resolved identity. -/
def withAuthRole {α : Type} (dec : String → RawToken) (secret : String) (now : Nat)
    (roles : List String) (st : ServerState) (authHeader : Option String)
    (k : Claims → Resp α × ServerState) : Resp α × ServerState :=
  match authenticateToken dec secret now authHeader with
  | .reject s m => (.err s m, st)
  | .accept u =>
    match authorizeRole roles (some u) with
    | some (s, m) => (.err s m, st)
    | none => k u

/-- The JSON body of the school write routes. -/
structure SchoolBody where
  school_name : Option String
  location : Option String
  contact_number : Option String
  email : Option String
  principal_name : Option String
  deriving Repr, DecidableEq

/-- `POST /api/schools` (backend lines 903-926): `authenticateToken`,
`authorizeRole(['admin','coordinator'])`, required-field check on
`school_name` and `location`, then the insert.  (A second, unauthenticated
registration of this path later in the source is dead: Express dispatches to
the first matching route, which always responds.) -/
def postSchools (dec : String → RawToken) (secret : String) (now : Nat)
    (st : ServerState) (authHeader : Option String) (b : SchoolBody) :
    Resp Nat × ServerState :=
  withAuthRole dec secret now ["admin", "coordinator"] st authHeader fun _ =>
    let missing := (if strFalsy b.school_name then ["school_name"] else []) ++
                   (if strFalsy b.location then ["location"] else [])
    if missing ≠ [] then
      (.err 400 ("Missing required fields: " ++ String.intercalate ", " missing), st)
    else
      (.ok 201 st.nextSchoolId,
       { st with schools := st.schools ++ [st.nextSchoolId],
                 nextSchoolId := st.nextSchoolId + 1 })

/-- `PUT /api/schools/:id` (backend lines 929-954).  The route registers ONLY
`authorizeRole(['admin','coordinator'])` — `authenticateToken` is absent — so
`req.user` is undefined when the role check runs, and every request, token or
no token, dies in the role middleware with a 500. -/
def putSchoolsId (st : ServerState) (_authHeader : Option String) (id : Nat)
    (_b : SchoolBody) : Resp Nat × ServerState :=
  match authorizeRole ["admin", "coordinator"] none with
  | some (s, m) => (.err s m, st)
  | none =>
    if st.schools.contains id then (.ok 200 id, st)
    else (.err 404 "School not found", st)

/-- `DELETE /api/schools/:id` (backend lines 957-973): like the update route it
registers only `authorizeRole`, without `authenticateToken`. -/
def deleteSchoolsId (st : ServerState) (_authHeader : Option String) (id : Nat) :
    Resp Nat × ServerState :=
  match authorizeRole ["admin", "coordinator"] none with
  | some (s, m) => (.err s m, st)
  | none =>
    if st.schools.contains id then
      (.ok 200 id, { st with schools := st.schools.filter (fun s => s ≠ id) })
    else (.err 404 "School not found", st)

/-- The JSON body of the examiner write routes. -/
structure ExaminerBody where
  examinerName : Option String
  schoolId : Option Nat
  subjectId : Option Nat
  email : Option String
  deriving Repr, DecidableEq

/-- `POST /api/examiners` (backend lines 1071-1093): auth, role
`{admin, coordinator}`, required fields `examinerName`, `schoolId`,
`subjectId`, then the storage insert. -/
def postExaminers (dec : String → RawToken) (secret : String) (now : Nat)
    (st : ServerState) (authHeader : Option String) (b : ExaminerBody) :
    Resp Examiner × ServerState :=
  withAuthRole dec secret now ["admin", "coordinator"] st authHeader fun _ =>
    let missing := (if strFalsy b.examinerName then ["examinerName"] else []) ++
                   (if natFalsy b.schoolId then ["schoolId"] else []) ++
                   (if natFalsy b.subjectId then ["subjectId"] else [])
    if missing ≠ [] then
      (.err 400 ("Missing required fields: " ++ String.intercalate ", " missing), st)
    else
      match addExaminer st ((b.examinerName).getD "") b.schoolId b.subjectId b.email with
      | .error e => (.err 500 e, st)
      | .ok (ex, st1) => (.ok 201 ex, st1)

/-- `PUT /api/examiners/:id` (backend lines 1096-1121): auth, role, then an
UPDATE of the row when it exists (404 otherwise). -/
def putExaminersId (dec : String → RawToken) (secret : String) (now : Nat)
    (st : ServerState) (authHeader : Option String) (id : Nat) (b : ExaminerBody) :
    Resp Nat × ServerState :=
  withAuthRole dec secret now ["admin", "coordinator"] st authHeader fun _ =>
    if st.examiners.any (fun x => x.examinerId == id) then
      if ¬ fkSchool st b.schoolId then (.err 500 "foreign key violation", st)
      else if ¬ fkSubject st b.subjectId then (.err 500 "foreign key violation", st)
      else
        (.ok 200 id,
         { st with examiners := st.examiners.map fun x =>
             if x.examinerId == id then
               { x with examinerName := (b.examinerName).getD x.examinerName,
                        schoolId := b.schoolId, subjectId := b.subjectId,
                        email := b.email }
             else x })
    else (.err 404 "Examiner not found", st)

/-- `DELETE /api/examiners/:id` (backend lines 1124-1140): auth, role, delete
when the row exists (404 otherwise). -/
def deleteExaminersId (dec : String → RawToken) (secret : String) (now : Nat)
    (st : ServerState) (authHeader : Option String) (id : Nat) :
    Resp Nat × ServerState :=
  withAuthRole dec secret now ["admin", "coordinator"] st authHeader fun _ =>
    if st.examiners.any (fun x => x.examinerId == id) then
      (.ok 200 id,
       { st with examiners := st.examiners.filter (fun x => x.examinerId ≠ id) })
    else (.err 404 "Examiner not found", st)

/-- The JSON body of the student write routes. -/
structure StudentBody where
  studentRollNumber : Option String
  studentName : Option String
  schoolId : Option Nat
  classStandard : Option Nat
  deriving Repr, DecidableEq

/-- `POST /api/students` (backend lines 1163-1189): auth, role, required fields
`studentRollNumber`, `studentName`, `schoolId`; the insert itself is outside
the claims' scope, so the model records only the middleware outcome and a
generic created response. -/
def postStudents (dec : String → RawToken) (secret : String) (now : Nat)
    (st : ServerState) (authHeader : Option String) (b : StudentBody) :
    Resp Nat × ServerState :=
  withAuthRole dec secret now ["admin", "coordinator"] st authHeader fun _ =>
    let missing := (if strFalsy b.studentRollNumber then ["studentRollNumber"] else []) ++
                   (if strFalsy b.studentName then ["studentName"] else []) ++
                   (if natFalsy b.schoolId then ["schoolId"] else [])
    if missing ≠ [] then
      (.err 400 ("Missing required fields: " ++ String.intercalate ", " missing), st)
    else if ¬ fkSchool st b.schoolId then (.err 500 "foreign key violation", st)
    else (.ok 201 0, st)

/-- `PUT /api/students/:rollNumber` (backend lines 1192-1216): auth then role;
the row update is outside the claims' scope. -/
def putStudentsRoll (dec : String → RawToken) (secret : String) (now : Nat)
    (st : ServerState) (authHeader : Option String) (_rollNumber : String)
    (_b : StudentBody) : Resp Nat × ServerState :=
  withAuthRole dec secret now ["admin", "coordinator"] st authHeader fun _ =>
    (.ok 200 0, st)

/-- `DELETE /api/students/:rollNumber` (backend lines 1218-1234): auth then
role; the row delete is outside the claims' scope. -/
def deleteStudentsRoll (dec : String → RawToken) (secret : String) (now : Nat)
    (st : ServerState) (authHeader : Option String) (_rollNumber : String) :
    Resp Nat × ServerState :=
  withAuthRole dec secret now ["admin", "coordinator"] st authHeader fun _ =>
    (.ok 200 0, st)

/-- The JSON body of the invigilation write routes. -/
structure InvigBody where
  examinerId : Option Nat
  schoolId : Option Nat
  subjectId : Option Nat
  examDate : Option String
  examSession : Option String
  deriving Repr, DecidableEq

/-- The error kinds the update-path validation can report. -/
inductive ValidationError where
  | invalidDate
  | unknownExaminer
  | unknownSchool
  | unknownSubject
  deriving Repr, DecidableEq

/-- The in-order date / reference checks of `PUT /api/invigilation/:id`
(backend lines 1366-1383): date well-formedness, then examiner existence, then
school existence, then subject existence, each an early return. -/
def validateAssignment (st : ServerState) (eid sid subId : Nat) (examDate : String) :
    Option ValidationError :=
  if ¬ isValidDate examDate then some .invalidDate
  else if ¬ st.examiners.any (fun x => x.examinerId == eid) then some .unknownExaminer
  else if ¬ st.schools.contains sid then some .unknownSchool
  else if ¬ st.subjects.contains subId then some .unknownSubject
  else none

/-- The response message of each validation error kind in the source. -/
def validationMsg : ValidationError → String
  | .invalidDate => "Invalid exam date format. Use YYYY-MM-DD."
  | .unknownExaminer => "Invalid examiner ID"
  | .unknownSchool => "Invalid school ID"
  | .unknownSubject => "Invalid subject ID"

/-- `PUT /api/invigilation/:id` (backend lines 1360-1406): auth, role
`{admin, coordinator}`, required-field check over all five body fields, then
the in-order validation, then the row update (404 when the id is unknown). -/
def putInvigilationId (dec : String → RawToken) (secret : String) (now : Nat)
    (st : ServerState) (authHeader : Option String) (id : Nat) (b : InvigBody) :
    Resp Assignment × ServerState :=
  withAuthRole dec secret now ["admin", "coordinator"] st authHeader fun _ =>
    let missing := (if natFalsy b.examinerId then ["examinerId"] else []) ++
                   (if natFalsy b.schoolId then ["schoolId"] else []) ++
                   (if strFalsy b.examDate then ["examDate"] else []) ++
                   (if strFalsy b.examSession then ["examSession"] else []) ++
                   (if natFalsy b.subjectId then ["subjectId"] else [])
    if missing ≠ [] then
      (.err 400 ("Missing required fields: " ++ String.intercalate ", " missing), st)
    else
      let eid := (b.examinerId).getD 0
      let sid := (b.schoolId).getD 0
      let subId := (b.subjectId).getD 0
      let d := (b.examDate).getD ""
      let sess := (b.examSession).getD ""
      match validateAssignment st eid sid subId d with
      | some e => (.err 400 (validationMsg e), st)
      | none =>
        if st.assignments.any (fun a => a.assignmentId == id) then
          (.ok 200 ⟨id, eid, sid, d, sess, some subId⟩,
           { st with assignments := st.assignments.map fun a =>
               if a.assignmentId == id then ⟨id, eid, sid, d, sess, some subId⟩ else a })
        else (.err 404 "Assignment not found", st)

/-- `POST /api/invigilation` (backend lines 1336-1356): auth, role, a
required-field check over `examinerId`, `schoolId`, `examDate`, `examSession`
(note: `subjectId` is not required), and then directly the storage insert —
no date-well-formedness check and no existence lookup of its own. -/
def postInvigilation (dec : String → RawToken) (secret : String) (now : Nat)
    (st : ServerState) (authHeader : Option String) (b : InvigBody) :
    Resp Assignment × ServerState :=
  withAuthRole dec secret now ["admin", "coordinator"] st authHeader fun _ =>
    let missing := (if natFalsy b.examinerId then ["examinerId"] else []) ++
                   (if natFalsy b.schoolId then ["schoolId"] else []) ++
                   (if strFalsy b.examDate then ["examDate"] else []) ++
                   (if strFalsy b.examSession then ["examSession"] else [])
    if missing ≠ [] then
      (.err 400 ("Missing required fields: " ++ String.intercalate ", " missing), st)
    else
      match addInvigilationAssignment st ((b.examinerId).getD 0) ((b.schoolId).getD 0)
            ((b.examDate).getD "") ((b.examSession).getD "") b.subjectId with
      | .error e => (.err 500 e, st)
      | .ok (a, st1) => (.ok 201 a, st1)

/-- `DELETE /api/invigilation/:id` (backend lines 1409-1425): auth, role,
delete when the row exists (404 otherwise). -/
def deleteInvigilationId (dec : String → RawToken) (secret : String) (now : Nat)
    (st : ServerState) (authHeader : Option String) (id : Nat) :
    Resp Nat × ServerState :=
  withAuthRole dec secret now ["admin", "coordinator"] st authHeader fun _ =>
    if st.assignments.any (fun a => a.assignmentId == id) then
      (.ok 200 id,
       { st with assignments := st.assignments.filter (fun a => a.assignmentId ≠ id) })
    else (.err 404 "Assignment not found", st)

/-- `GET /api/answer-sheets` (backend lines 1237-1253): authentication only;
an identity with role `examiner` and a truthy examiner id receives only its
own sheets, an examiner identity without one receives a 400, and every other
role receives the full list. -/
def getAnswerSheets (dec : String → RawToken) (secret : String) (now : Nat)
    (st : ServerState) (authHeader : Option String) : Resp (List Sheet) :=
  match authenticateToken dec secret now authHeader with
  | .reject s m => .err s m
  | .accept u =>
    if u.role == "examiner" then
      if natFalsy u.examinerId then .err 400 "Examiner ID not associated with this user"
      else .ok 200 (getAnswerSheetsByExaminer st ((u.examinerId).getD 0))
    else .ok 200 st.sheets

/-- `GET /api/answer-sheets/examiner/:examinerId` (backend lines 1305-1312):
the route registers NO middleware at all — neither `authenticateToken` nor
`authorizeRole` — and hands the path parameter straight to the per-examiner
query.  The (ignored) header parameter records that the request may or may not
carry a credential. -/
def getAnswerSheetsExaminerRoute (st : ServerState) (_authHeader : Option String)
    (examinerId : Nat) : Resp (List Sheet) :=
  .ok 200 (getAnswerSheetsByExaminer st examinerId)

/-! ### Shared test fixtures and helper lemmas -/

/-- A database fixture: examiner 1, school 1, subject 1, one assignment. -/
def stFix : ServerState :=
  ⟨[], [⟨1, "Dr. Rajesh Kumar", some 1, some 1, none⟩], [1], [1],
   [⟨"AB2024001", "2024001001", 1, 1, some 85⟩, ⟨"AB2024002", "2024001002", 2, 2, some 90⟩],
   [⟨1, 1, 1, "2025-06-01", "Morning", some 1⟩], [], 1, 2, 2, 2, 1⟩

/-- An empty database fixture (fresh serials, school 1 and subject 1 present so
that the registration defaults can resolve). -/
def stEmpty : ServerState := ⟨[], [], [1], [1], [], [], [], 1, 1, 1, 2, 1⟩

/-- A concrete stand-in for the bcrypt hash in witnesses. -/
def bhFix (s : String) : String := s ++ "#"

/-- Claims of an examiner-role identity used in witnesses. -/
def exClaims : Claims := ⟨2, "ex1", "examiner", some 1, some 1⟩

/-- Claims of an admin-role identity used in witnesses. -/
def adClaims : Claims := ⟨1, "admin", "admin", none, none⟩

/-- A decoder mapping every wire token to a token signed for `exClaims`. -/
def decEx : String → RawToken := fun _ => RawToken.signed exClaims "s" 86400

/-- A decoder mapping every wire token to a token signed for `adClaims`. -/
def decAd : String → RawToken := fun _ => RawToken.signed adClaims "s" 86400

/-- `find?` skips a prefix on which the predicate fails. -/
theorem find?_append_of_none {α : Type} {p : α → Bool} {l1 l2 : List α}
    (h : l1.find? p = none) : (l1 ++ l2).find? p = l2.find? p := by
  rw [List.find?_append, h, Option.none_or]

/-- Verification succeeds on a token the issuer signed, at any instant before
its expiry. -/
theorem jwtVerify_jwtSign (secret : String) (issued now : Nat) (c : Claims)
    (h : now < issued + 86400) :
    jwtVerify secret now (jwtSign secret issued c) = .ok c := by
  simp [jwtSign, jwtVerify, Nat.not_le.mpr h]

/-! ### C1 — gateway status codes -/

/-- C1 counterexample: the claim states that a failed token verification is
surfaced as HTTP 401; on the code, a request whose bearer token fails
verification (here: a malformed token) is answered with HTTP 403. -/
theorem c1_counterexample :
    (authenticateToken (fun _ => RawToken.garbage) "cbse-jwt-secret-key" 0
        (some "Bearer nonsense")).status = some 403 ∧
    ¬ (authenticateToken (fun _ => RawToken.garbage) "cbse-jwt-secret-key" 0
        (some "Bearer nonsense")).status = some 401 := by
  decide

/-- C1 (amended): a protected request with no extractable bearer token fails
with 401 `Access token required`; a request whose token fails verification —
whatever the failure mode (malformed, bad signature, or expired) — receives
the single generic 403 `Invalid or expired token` response, which therefore
does not distinguish the failure modes. -/
theorem c1_gateway_statuses (dec : String → RawToken) (secret : String) (now : Nat)
    (authHeader : Option String) :
    ((extractToken authHeader = none ∨ extractToken authHeader = some "") →
      authenticateToken dec secret now authHeader = .reject 401 "Access token required") ∧
    (∀ t e, extractToken authHeader = some t → t ≠ "" →
      jwtVerify secret now (dec t) = .error e →
      authenticateToken dec secret now authHeader
        = .reject 403 "Invalid or expired token") := by
  constructor
  · rintro (h | h) <;> simp [authenticateToken, h]
  · intro t e ht htne hv
    simp [authenticateToken, ht, htne, hv]

/-- C1 witness: the amended theorem evaluated on a missing header and on a
malformed bearer token. -/
theorem c1_gateway_statuses_witness :
    authenticateToken (fun _ => RawToken.garbage) "s" 0 none
        = .reject 401 "Access token required" ∧
    authenticateToken (fun _ => RawToken.garbage) "s" 0 (some "Bearer x")
        = .reject 403 "Invalid or expired token" :=
  ⟨(c1_gateway_statuses (fun _ => RawToken.garbage) "s" 0 none).1 (Or.inl (by decide)),
   (c1_gateway_statuses (fun _ => RawToken.garbage) "s" 0 (some "Bearer x")).2
     "x" "jwt malformed" (by decide) (by decide) rfl⟩

/-! ### C3 — order of the update-path validation -/

/-- C3: the update-path validation checks run in the fixed order date,
examiner, school, subject; the first failing check alone fixes the reported
error kind; Feb 30 and month 13 are rejected as dates; and the two instances
named by the specification evaluate as stated. -/
theorem c3_validation_order (st : ServerState) :
    (∀ eid sid subId d, isValidDate d = false →
      validateAssignment st eid sid subId d = some .invalidDate) ∧
    (∀ eid sid subId d, isValidDate d = true →
      st.examiners.any (fun x => x.examinerId == eid) = false →
      validateAssignment st eid sid subId d = some .unknownExaminer) ∧
    (∀ eid sid subId d, isValidDate d = true →
      st.examiners.any (fun x => x.examinerId == eid) = true →
      st.schools.contains sid = false →
      validateAssignment st eid sid subId d = some .unknownSchool) ∧
    (∀ eid sid subId d, isValidDate d = true →
      st.examiners.any (fun x => x.examinerId == eid) = true →
      st.schools.contains sid = true →
      st.subjects.contains subId = false →
      validateAssignment st eid sid subId d = some .unknownSubject) ∧
    (∀ eid sid subId d, isValidDate d = true →
      st.examiners.any (fun x => x.examinerId == eid) = true →
      st.schools.contains sid = true →
      st.subjects.contains subId = true →
      validateAssignment st eid sid subId d = none) ∧
    (st.examiners.any (fun x => x.examinerId == 999) = false →
      validateAssignment st 999 1 1 "2025-06-01" = some .unknownExaminer) ∧
    validateAssignment st 1 1 1 "2025-02-30" = some .invalidDate ∧
    isValidDate "2025-06-01" = true ∧
    isValidDate "2025-02-30" = false ∧
    isValidDate "2024-13-01" = false := by
  refine ⟨?_, ?_, ?_, ?_, ?_, ?_, ?_, by decide, by decide, by decide⟩
  · intro eid sid subId d hd
    simp [validateAssignment, hd]
  · intro eid sid subId d hd he
    simp [validateAssignment, hd, he]
  · intro eid sid subId d hd he hs
    simp at hs
    simp [validateAssignment, hd, he, hs]
  · intro eid sid subId d hd he hs hsub
    simp at hs hsub
    simp [validateAssignment, hd, he, hs, hsub]
  · intro eid sid subId d hd he hs hsub
    simp at hs hsub
    simp [validateAssignment, hd, he, hs, hsub]
  · intro he
    simp [validateAssignment, he, show isValidDate "2025-06-01" = true from by decide]
  · simp [validateAssignment, show isValidDate "2025-02-30" = false from by decide]

/-- C3 witness: the two specification instances evaluated on the fixture
database (examiner 1, school 1, subject 1 exist; examiner 999 does not). -/
theorem c3_validation_order_witness :
    validateAssignment stFix 999 1 1 "2025-06-01" = some .unknownExaminer ∧
    validateAssignment stFix 1 1 1 "2025-02-30" = some .invalidDate :=
  ⟨(c3_validation_order stFix).2.2.2.2.2.1 (by decide),
   (c3_validation_order stFix).2.2.2.2.2.2.1⟩

/-! ### C9 — the per-examiner answer-sheet route is unauthenticated -/

/-- C9: `GET /api/answer-sheets/examiner/:examinerId` ignores credentials
entirely — its response is the same for every (possibly absent) authorization
header — and an anonymous call already returns, with status 200, exactly the
sheets whose examiner reference is the requested id: the very data the
examiner-scoped `GET /api/answer-sheets` restricts to the owning identity. -/
theorem c9_examiner_route_open (st : ServerState) (eid : Nat) :
    (∀ h1 h2 : Option String,
      getAnswerSheetsExaminerRoute st h1 eid = getAnswerSheetsExaminerRoute st h2 eid) ∧
    getAnswerSheetsExaminerRoute st none eid
      = .ok 200 (getAnswerSheetsByExaminer st eid) ∧
    (∀ s : Sheet, s ∈ getAnswerSheetsByExaminer st eid ↔
      s ∈ st.sheets ∧ s.examinerId = eid) := by
  refine ⟨fun h1 h2 => rfl, rfl, fun s => ?_⟩
  simp [getAnswerSheetsByExaminer, List.mem_filter]

/-! ### C8 — examiner-scoped reads of /answer-sheets -/

/-- C8: on `GET /api/answer-sheets`, an authenticated identity whose role is
`examiner` (with a truthy examiner reference) receives exactly its own sheets
— every sheet in the returned list carries its examiner reference — while an
identity of any other role receives the full list. -/
theorem c8_answer_sheets_scoping (dec : String → RawToken) (secret : String)
    (now : Nat) (st : ServerState) (h : Option String) (u : Claims)
    (hacc : authenticateToken dec secret now h = .accept u) :
    (∀ eid, u.role = "examiner" → u.examinerId = some eid → eid ≠ 0 →
      getAnswerSheets dec secret now st h = .ok 200 (getAnswerSheetsByExaminer st eid) ∧
      ∀ s ∈ getAnswerSheetsByExaminer st eid, s.examinerId = eid) ∧
    (u.role ≠ "examiner" →
      getAnswerSheets dec secret now st h = .ok 200 st.sheets) := by
  constructor
  · intro eid hrole heid hne
    constructor
    · simp [getAnswerSheets, hacc, hrole, heid, natFalsy, hne]
    · intro s hs
      have := (List.mem_filter.mp hs).2
      simpa using this
  · intro hrole
    simp [getAnswerSheets, hacc, hrole]

/-- C8 witness: an examiner identity (examiner reference 1) reading the
fixture database receives exactly the sheets of examiner 1; the admin identity
receives the full list. -/
theorem c8_answer_sheets_scoping_witness :
    getAnswerSheets decEx "s" 0 stFix (some "Bearer t")
      = .ok 200 [⟨"AB2024001", "2024001001", 1, 1, some 85⟩] ∧
    getAnswerSheets decAd "s" 0 stFix (some "Bearer t") = .ok 200 stFix.sheets := by
  constructor
  · have := ((c8_answer_sheets_scoping decEx "s" 0 stFix (some "Bearer t") exClaims
      (by decide)).1 1 rfl rfl (by decide)).1
    rw [this]
    decide
  · exact (c8_answer_sheets_scoping decAd "s" 0 stFix (some "Bearer t") adClaims
      (by decide)).2 (by decide)

/-! ### C2 — examiner-role writes to the four resources -/

/-- C2 counterexample: the claim states every write by an examiner-role
identity to the four resources is answered 403.  On the code,
`PUT /api/schools/:id` registers `authorizeRole` without `authenticateToken`,
so the very request that carries a perfectly valid examiner token (the first
conjunct) is answered 500, not 403. -/
theorem c2_counterexample :
    authenticateToken decEx "s" 0 (some "Bearer t") = .accept exClaims ∧
    exClaims.role = "examiner" ∧
    (putSchoolsId stFix (some "Bearer t") 1 ⟨some "n", some "l", none, none, none⟩).fst.status
      = 500 ∧
    ¬ (putSchoolsId stFix (some "Bearer t") 1 ⟨some "n", some "l", none, none, none⟩).fst.status
      = 403 := by
  decide

/-- C2 (amended): for a request whose valid token carries role `examiner`,
every write route on the four resources that runs the authentication
middleware before the role check — `POST /schools`, all three examiner writes,
all three student writes, and all three invigilation writes — is rejected 403
`Insufficient permissions` with the state unchanged, for every request body;
`PUT /schools/:id` and `DELETE /schools/:id`, which lack the authentication
middleware, instead fail with a 500 server error (for every caller). -/
theorem c2_examiner_writes (dec : String → RawToken) (secret : String) (now : Nat)
    (st : ServerState) (h : Option String) (u : Claims)
    (hacc : authenticateToken dec secret now h = .accept u)
    (hrole : u.role = "examiner") :
    (∀ b, postSchools dec secret now st h b = (.err 403 "Insufficient permissions", st)) ∧
    (∀ b, postExaminers dec secret now st h b = (.err 403 "Insufficient permissions", st)) ∧
    (∀ id b, putExaminersId dec secret now st h id b
      = (.err 403 "Insufficient permissions", st)) ∧
    (∀ id, deleteExaminersId dec secret now st h id
      = (.err 403 "Insufficient permissions", st)) ∧
    (∀ b, postStudents dec secret now st h b = (.err 403 "Insufficient permissions", st)) ∧
    (∀ r b, putStudentsRoll dec secret now st h r b
      = (.err 403 "Insufficient permissions", st)) ∧
    (∀ r, deleteStudentsRoll dec secret now st h r
      = (.err 403 "Insufficient permissions", st)) ∧
    (∀ b, postInvigilation dec secret now st h b
      = (.err 403 "Insufficient permissions", st)) ∧
    (∀ id b, putInvigilationId dec secret now st h id b
      = (.err 403 "Insufficient permissions", st)) ∧
    (∀ id, deleteInvigilationId dec secret now st h id
      = (.err 403 "Insufficient permissions", st)) ∧
    (∀ id b, putSchoolsId st h id b = (.err 500 "Internal Server Error", st)) ∧
    (∀ id, deleteSchoolsId st h id = (.err 500 "Internal Server Error", st)) := by
  have hrc : authorizeRole ["admin", "coordinator"] (some u)
      = some (403, "Insufficient permissions") := by
    simp [authorizeRole, hrole]
  refine ⟨fun b => ?_, fun b => ?_, fun id b => ?_, fun id => ?_, fun b => ?_,
    fun r b => ?_, fun r => ?_, fun b => ?_, fun id b => ?_, fun id => ?_,
    fun id b => ?_, fun id => ?_⟩
  · simp [postSchools, withAuthRole, hacc, hrc]
  · simp [postExaminers, withAuthRole, hacc, hrc]
  · simp [putExaminersId, withAuthRole, hacc, hrc]
  · simp [deleteExaminersId, withAuthRole, hacc, hrc]
  · simp [postStudents, withAuthRole, hacc, hrc]
  · simp [putStudentsRoll, withAuthRole, hacc, hrc]
  · simp [deleteStudentsRoll, withAuthRole, hacc, hrc]
  · simp [postInvigilation, withAuthRole, hacc, hrc]
  · simp [putInvigilationId, withAuthRole, hacc, hrc]
  · simp [deleteInvigilationId, withAuthRole, hacc, hrc]
  · simp [putSchoolsId, authorizeRole]
  · simp [deleteSchoolsId, authorizeRole]

/-- C2 witness: the amended theorem evaluated for a concrete examiner-token
request against the fixture database. -/
theorem c2_examiner_writes_witness :
    postSchools decEx "s" 0 stFix (some "Bearer t") ⟨some "n", some "l", none, none, none⟩
      = (.err 403 "Insufficient permissions", stFix) ∧
    putInvigilationId decEx "s" 0 stFix (some "Bearer t") 1
        ⟨some 1, some 1, some 1, some "2025-06-01", some "Morning"⟩
      = (.err 403 "Insufficient permissions", stFix) ∧
    putSchoolsId stFix (some "Bearer t") 1 ⟨some "n", some "l", none, none, none⟩
      = (.err 500 "Internal Server Error", stFix) :=
  ⟨(c2_examiner_writes decEx "s" 0 stFix (some "Bearer t") exClaims (by decide) rfl).1
      ⟨some "n", some "l", none, none, none⟩,
   (c2_examiner_writes decEx "s" 0 stFix (some "Bearer t") exClaims (by decide) rfl).2.2.2.2.2.2.2.2.1
      1 ⟨some 1, some 1, some 1, some "2025-06-01", some "Morning"⟩,
   (c2_examiner_writes decEx "s" 0 stFix (some "Bearer t") exClaims (by decide) rfl).2.2.2.2.2.2.2.2.2.2.1
      1 ⟨some "n", some "l", none, none, none⟩⟩

/-! ### Inversion lemmas for the auth handlers -/

/-- A non-falsy optional string is `some` of its default-extracted value,
which is non-empty. -/
theorem strFalsy_false {v : Option String} (h : strFalsy v = false) :
    v = some (v.getD "") ∧ v.getD "" ≠ "" := by
  cases v with
  | none => simp [strFalsy] at h
  | some s => simp [strFalsy] at h; simp [h]

/-- What a successful storage-level user insert tells us. -/
theorem createUser_ok_inv {bhash : String → String} {st st2 : ServerState}
    {un em pw r : String} {eid sid : Option Nat} {u : User}
    (h : createUser bhash st un em pw r eid sid = .ok (u, st2)) :
    u = ⟨st.nextUserId, un, em, bhash pw, r, eid, sid, true, none⟩ ∧
    st2 = { st with users := st.users ++ [u], nextUserId := st.nextUserId + 1 } ∧
    st.users.any (fun x => x.username == un) = false := by
  unfold createUser at h
  split at h
  · simp at h
  · split at h
    · simp at h
    · split at h
      · simp at h
      · split at h
        · simp at h
        · split at h
          · simp at h
          · simp only [Except.ok.injEq, Prod.mk.injEq] at h
            obtain ⟨hu, hst⟩ := h
            refine ⟨hu.symm, ?_, by simp_all⟩
            rw [← hst, ← hu]

/-- What a successful storage-level examiner insert tells us. -/
theorem addExaminer_ok_inv {st st2 : ServerState} {n : String}
    {sid subId : Option Nat} {em : Option String} {ex : Examiner}
    (h : addExaminer st n sid subId em = .ok (ex, st2)) :
    ex = ⟨st.nextExaminerId, n, sid, subId, em⟩ ∧
    st2 = { st with examiners := st.examiners ++ [ex],
                    nextExaminerId := st.nextExaminerId + 1 } := by
  unfold addExaminer at h
  split at h
  · simp at h
  · split at h
    · simp at h
    · simp only [Except.ok.injEq, Prod.mk.injEq] at h
      obtain ⟨hex, hst⟩ := h
      refine ⟨hex.symm, ?_⟩
      rw [← hst, ← hex]

/-- What a successful registration tells us: the body fields that were
accepted, the shape of the created user, the unchanged prefix of the user
table, and — when the supplied role was exactly `examiner` with no truthy
examiner id — the silently created examiner row. -/
theorem register_ok_inv {bhash : String → String} {st st1 : ServerState}
    {b : RegisterBody} {u : User}
    (h : register bhash st b = (.ok 201 u, st1)) :
    b.username = some u.username ∧
    u.username ≠ "" ∧
    b.password = some ((b.password).getD "") ∧
    u.passwordHash = bhash ((b.password).getD "") ∧
    (b.password).getD "" ≠ "" ∧
    u.isActive = true ∧
    u.role = strOr b.role "examiner" ∧
    st1.users = st.users ++ [u] ∧
    (∀ x ∈ st.users, x.username ≠ u.username) ∧
    ((b.role == some "examiner" && natFalsy b.examinerId) = true →
      u.examinerId = some st.nextExaminerId ∧
      ∃ ex ∈ st1.examiners, ex.examinerId = st.nextExaminerId ∧
        ex.examinerName = u.username ∧ ex.schoolId = some (natOr b.schoolId 1) ∧
        ex.subjectId = some 1) := by
  unfold register at h
  split at h
  · simp at h
  rename_i hfalsy
  have hfx : (strFalsy b.username = false ∧ strFalsy b.email = false) ∧
      strFalsy b.password = false := by
    simpa [not_or] using hfalsy
  obtain ⟨⟨hbu, -⟩, hbp⟩ := hfx
  obtain ⟨hbu1, hbu2⟩ := strFalsy_false hbu
  obtain ⟨hbp1, hbp2⟩ := strFalsy_false hbp
  dsimp only at h
  split at h
  · simp at h
  split at h
  · simp at h
  split at h
  · simp at h
  split at h
  · simp at h
  rename_i finalEid stMid heq
  split at h
  · simp at h
  rename_i u0 st2 hcu
  simp only [Prod.mk.injEq, Resp.ok.injEq] at h
  obtain ⟨⟨-, hu⟩, hst1⟩ := h
  subst hu
  subst hst1
  by_cases hcond : (b.role == some "examiner" && natFalsy b.examinerId) = true
  · rw [if_pos hcond] at heq
    cases haddEx : addExaminer st (b.username.getD "") (some (natOr b.schoolId 1))
        (some 1) (some (b.email.getD "")) with
    | error e =>
      rw [haddEx] at heq
      simp [Except.map] at heq
    | ok pr =>
      obtain ⟨ex, stE⟩ := pr
      rw [haddEx] at heq
      simp only [Except.map, Except.ok.injEq, Prod.mk.injEq] at heq
      obtain ⟨hfe, hstMid⟩ := heq
      obtain ⟨hex, hstE⟩ := addExaminer_ok_inv haddEx
      obtain ⟨huDef, hst2, hany⟩ := createUser_ok_inv hcu
      subst hstMid
      subst hstE
      subst hex
      subst huDef
      subst hst2
      refine ⟨hbu1, hbu2, hbp1, rfl, hbp2, rfl, rfl, rfl, ?_, ?_⟩
      · intro x hx hxn
        have hmem : ∃ y ∈ st.users, (fun z : User => z.username == b.username.getD "") y
            = true := ⟨x, hx, by simp [hxn]⟩
        rw [← List.any_eq_true] at hmem
        simp [hmem] at hany
      · intro hc2
        refine ⟨by rw [← hfe], ⟨st.nextExaminerId, b.username.getD "",
          some (natOr b.schoolId 1), some 1, some (b.email.getD "")⟩, by simp, rfl, rfl,
          rfl, rfl⟩
  · rw [if_neg hcond] at heq
    simp only [Except.ok.injEq, Prod.mk.injEq] at heq
    obtain ⟨hfe, hstMid⟩ := heq
    obtain ⟨huDef, hst2, hany⟩ := createUser_ok_inv hcu
    subst hstMid
    subst huDef
    subst hst2
    refine ⟨hbu1, hbu2, hbp1, rfl, hbp2, rfl, rfl, rfl, ?_, fun hc2 => absurd hc2 hcond⟩
    intro x hx hxn
    have hmem : ∃ y ∈ st.users, (fun z : User => z.username == b.username.getD "") y
        = true := ⟨x, hx, by simp [hxn]⟩
    rw [← List.any_eq_true] at hmem
    simp [hmem] at hany

/-! ### C5 — registration followed by login -/

/-- C5: a registration that succeeds (fresh username and email, valid
password) is followed by a successful login with the same username and
password: the login returns status 200 and a token signed for the user's
claims, and verifying that token (any time before its 24-hour expiry) yields
claims whose role is exactly the role recorded at registration
(`role || 'examiner'`). -/
theorem c5_register_then_login (bhash : String → String) (secret : String)
    (st st1 : ServerState) (b : RegisterBody) (u : User) (uname pw : String)
    (t1 t2 : Nat)
    (hreg : register bhash st b = (.ok 201 u, st1))
    (hun : b.username = some uname) (hpw : b.password = some pw)
    (hexp : t2 < t1 + 86400) :
    ∃ st2, login bhash secret t1 st1 (some uname) (some pw)
      = (.ok 200 (jwtSign secret t1
          ⟨u.userId, u.username, u.role, u.examinerId, u.schoolId⟩, u), st2) ∧
    jwtVerify secret t2 (jwtSign secret t1
        ⟨u.userId, u.username, u.role, u.examinerId, u.schoolId⟩)
      = .ok ⟨u.userId, u.username, u.role, u.examinerId, u.schoolId⟩ ∧
    u.role = strOr b.role "examiner" := by
  obtain ⟨hbu1, hbu2, hbp1, hhash, hbp2, hact, hrole, husers, hpref, -⟩ :=
    register_ok_inv hreg
  have huname : uname = u.username := by
    rw [hun] at hbu1; exact Option.some.inj hbu1
  have hpwe : pw = (b.password).getD "" := by rw [hpw]; rfl
  subst huname
  subst hpwe
  have hfind : getUserByUsername st1 u.username = some u := by
    unfold getUserByUsername
    rw [husers, find?_append_of_none]
    · exact List.find?_cons_of_pos _ (by simp [hact])
    · rw [List.find?_eq_none]
      intro x hx
      simp [hpref x hx]
  have hlog : ∃ st2, login bhash secret t1 st1 (some u.username)
      (some ((b.password).getD ""))
      = (.ok 200 (jwtSign secret t1
          ⟨u.userId, u.username, u.role, u.examinerId, u.schoolId⟩, u), st2) := by
    unfold login
    rw [if_neg (by simp [strFalsy, hbu2, hbp2])]
    dsimp only [Option.getD_some]
    rw [hfind]
    dsimp only
    rw [if_neg (by simp [hhash])]
    exact ⟨_, rfl⟩
  obtain ⟨st2, hlog⟩ := hlog
  exact ⟨st2, hlog, jwtVerify_jwtSign secret t1 t2 _ hexp, hrole⟩

/-- The user created by the C5 witness registration. -/
def t1User : User := ⟨1, "t1", "t1@x.com", "secret1#", "coordinator", none, none, true, none⟩

/-- The state after the C5 witness registration. -/
def t1State : ServerState := ⟨[t1User], [], [1], [1], [], [], [], 2, 1, 1, 2, 1⟩

/-- C5 witness: the specification's end-to-end scenario — register `t1` with
role `coordinator`, then log in with the same credentials — evaluated
concretely. -/
theorem c5_register_then_login_witness :
    register bhFix stEmpty ⟨some "t1", some "t1@x.com", some "secret1",
        some "coordinator", none, none⟩ = (.ok 201 t1User, t1State) ∧
    ∃ st2, login bhFix "s" 10 t1State (some "t1") (some "secret1")
      = (.ok 200 (jwtSign "s" 10
          ⟨t1User.userId, t1User.username, t1User.role, t1User.examinerId,
           t1User.schoolId⟩, t1User), st2) ∧
    jwtVerify "s" 20 (jwtSign "s" 10
        ⟨t1User.userId, t1User.username, t1User.role, t1User.examinerId,
         t1User.schoolId⟩)
      = .ok ⟨t1User.userId, t1User.username, t1User.role, t1User.examinerId,
             t1User.schoolId⟩ ∧
    t1User.role = strOr (some "coordinator") "examiner" :=
  ⟨by decide,
   c5_register_then_login bhFix "s" stEmpty t1State
     ⟨some "t1", some "t1@x.com", some "secret1", some "coordinator", none, none⟩
     t1User "t1" "secret1" 10 20 (by decide) rfl rfl (by decide)⟩

/-! ### C6 — inactive users cannot authenticate -/

/-- An inactive user row used for the C6 fixtures. -/
def bobUser : User := ⟨3, "bob", "b@x.com", "pw123#", "examiner", none, none, false, none⟩

/-- A state whose only user is the inactive `bobUser`. -/
def stBob : ServerState := ⟨[bobUser], [], [1], [1], [], [], [], 4, 1, 1, 2, 1⟩

/-- C6 counterexample: the claim states the login of an inactive user fails
with 401 `Invalid credentials` regardless of the password supplied; supplying
the (falsy) empty-string password makes the handler answer
400 `Username and password are required` instead. -/
theorem c6_counterexample :
    bobUser ∈ stBob.users ∧ bobUser.isActive = false ∧
    (login bhFix "s" 0 stBob (some "bob") (some "")).fst
      = .err 400 "Username and password are required" ∧
    ¬ (login bhFix "s" 0 stBob (some "bob") (some "")).fst
      = .err 401 "Invalid credentials" := by
  decide

/-- C6 (amended): the active-only credential lookup makes an inactive user's
login fail with 401 `Invalid credentials` for every non-empty password (the
empty or missing password is caught earlier by the required-field check, as a
400); in every case — for every optional password value — the login of an
inactive user never succeeds. -/
theorem c6_inactive_never_authenticates (bhash : String → String) (secret : String)
    (now : Nat) (st : ServerState) (u : User)
    (hnodup : (st.users.map User.username).Nodup)
    (hu : u ∈ st.users) (hinact : u.isActive = false) :
    (∀ pw : String, u.username ≠ "" → pw ≠ "" →
      login bhash secret now st (some u.username) (some pw)
        = (.err 401 "Invalid credentials", st)) ∧
    (∀ pw : Option String,
      ((login bhash secret now st (some u.username) pw).fst).isOk = false) := by
  have hfind : getUserByUsername st u.username = none := by
    unfold getUserByUsername
    rw [List.find?_eq_none]
    intro x hx hcontra
    simp only [Bool.and_eq_true, beq_iff_eq] at hcontra
    obtain ⟨hxact, hxname⟩ := hcontra
    have hxu : x = u := List.inj_on_of_nodup_map hnodup hx hu hxname
    rw [hxu, hinact] at hxact
    exact Bool.false_ne_true hxact
  constructor
  · intro pw hne1 hne2
    unfold login
    rw [if_neg (by simp [strFalsy, hne1, hne2])]
    dsimp only [Option.getD_some]
    rw [hfind]
  · intro pw
    unfold login
    by_cases hcond : (strFalsy (some u.username) || strFalsy pw) = true
    · rw [if_pos hcond]
      rfl
    · rw [if_neg hcond]
      dsimp only [Option.getD_some]
      rw [hfind]
      rfl

/-- C6 witness: the amended theorem evaluated on the inactive user `bob`, for
a wrong non-empty password and for the empty password. -/
theorem c6_inactive_never_authenticates_witness :
    login bhFix "s" 0 stBob (some "bob") (some "wrong")
      = (.err 401 "Invalid credentials", stBob) ∧
    ((login bhFix "s" 0 stBob (some "bob") (some "")).fst).isOk = false :=
  ⟨(c6_inactive_never_authenticates bhFix "s" 0 stBob bobUser (by decide) (by decide)
      rfl).1 "wrong" (by decide) (by decide),
   (c6_inactive_never_authenticates bhFix "s" 0 stBob bobUser (by decide) (by decide)
      rfl).2 (some "")⟩

/-! ### C4 — logout destroys only the session record -/

/-- A successful login hands out exactly the token signed, at login time, for
the logged-in user's claims. -/
theorem login_ok_inv {bhash : String → String} {secret : String} {now : Nat}
    {st st1 : ServerState} {un pw : Option String} {s : Nat} {tok : RawToken}
    {u : User}
    (h : login bhash secret now st un pw = (.ok s (tok, u), st1)) :
    tok = jwtSign secret now ⟨u.userId, u.username, u.role, u.examinerId, u.schoolId⟩ := by
  unfold login at h
  split at h
  · simp at h
  dsimp only at h
  split at h
  · simp at h
  rename_i user huser
  split at h
  · simp at h
  simp only [Prod.mk.injEq, Resp.ok.injEq] at h
  obtain ⟨⟨-, htok, huu⟩, -⟩ := h
  subst huu
  rw [← htok]

/-- C4: logging out destroys only the server-side session record — every other
component of the state is unchanged — and a token handed out by a login, when
presented after the logout at any time before its natural expiry, is still
accepted by the authentication gateway, whose decision never consults the
session registry. -/
theorem c4_logout_token_survival (bhash : String → String) (dec : String → RawToken)
    (secret : String) (st st1 : ServerState) (uname pw ts : String) (t0 t1 t2 : Nat)
    (hA : Option String) (sid : Nat) (tok : RawToken) (u : User)
    (hlogin : login bhash secret t0 st (some uname) (some pw) = (.ok 200 (tok, u), st1))
    (hts : extractToken hA = some ts) (htsne : ts ≠ "") (hdec : dec ts = tok)
    (hexp : t2 < t0 + 86400) :
    ((logout dec secret t1 st1 hA sid).snd.users = st1.users ∧
     (logout dec secret t1 st1 hA sid).snd.examiners = st1.examiners ∧
     (logout dec secret t1 st1 hA sid).snd.schools = st1.schools ∧
     (logout dec secret t1 st1 hA sid).snd.subjects = st1.subjects ∧
     (logout dec secret t1 st1 hA sid).snd.sheets = st1.sheets ∧
     (logout dec secret t1 st1 hA sid).snd.assignments = st1.assignments) ∧
    authenticateToken dec secret t2 hA
      = .accept ⟨u.userId, u.username, u.role, u.examinerId, u.schoolId⟩ := by
  have htok := login_ok_inv hlogin
  constructor
  · cases hg : authenticateToken dec secret t1 hA <;> simp [logout, hg]
  · rw [htok] at hdec
    unfold authenticateToken
    simp only [hts]
    rw [if_neg htsne, hdec, jwtVerify_jwtSign secret t0 t2 _ hexp]

/-- The user row behind the C4 witness. -/
def aliceUser : User := ⟨1, "alice", "a@x.com", "pw#", "admin", none, none, true, none⟩

/-- The state the C4 witness logs into. -/
def stAlice : ServerState := ⟨[aliceUser], [], [1], [1], [], [], [], 2, 1, 1, 2, 1⟩

/-- The token minted by the C4 witness login. -/
def aliceTok : RawToken := jwtSign "s" 0 ⟨1, "alice", "admin", none, none⟩

/-- The state right after the C4 witness login (last-login touched, one
session record). -/
def stAlice1 : ServerState :=
  ⟨[⟨1, "alice", "a@x.com", "pw#", "admin", none, none, true, some 0⟩], [], [1], [1],
   [], [], [⟨1, 1, "alice", "admin"⟩], 2, 1, 1, 2, 2⟩

/-- A decoder for the C4 witness wire token. -/
def decAlice : String → RawToken := fun _ => aliceTok

/-- C4 witness: log `alice` in at time 0, log out at time 5, present the login
token again at time 100 — still accepted; the post-logout state differs from
the post-login state only in its session registry. -/
theorem c4_logout_token_survival_witness :
    ((logout decAlice "s" 5 stAlice1 (some "Bearer w") 1).snd.users = stAlice1.users ∧
     (logout decAlice "s" 5 stAlice1 (some "Bearer w") 1).snd.examiners = stAlice1.examiners ∧
     (logout decAlice "s" 5 stAlice1 (some "Bearer w") 1).snd.schools = stAlice1.schools ∧
     (logout decAlice "s" 5 stAlice1 (some "Bearer w") 1).snd.subjects = stAlice1.subjects ∧
     (logout decAlice "s" 5 stAlice1 (some "Bearer w") 1).snd.sheets = stAlice1.sheets ∧
     (logout decAlice "s" 5 stAlice1 (some "Bearer w") 1).snd.assignments
       = stAlice1.assignments) ∧
    authenticateToken decAlice "s" 100 (some "Bearer w")
      = .accept ⟨1, "alice", "admin", none, none⟩ :=
  c4_logout_token_survival bhFix decAlice "s" stAlice stAlice1 "alice" "pw" "w" 0 5 100
    (some "Bearer w") 1 aliceTok aliceUser (by decide) (by decide) (by decide) rfl
    (by decide)

/-! ### C7 — the invigilation create path validates nothing of its own -/

/-- C7: once its middleware and required-field check pass, the create path of
invigilation assignments hands the body straight to the storage insert: its
outcome is exactly the storage outcome (first conjunct); in particular a
syntactically invalid exam date is accepted whenever the storage foreign keys
resolve (second conjunct — no date check), a dangling examiner reference
surfaces as the storage layer's foreign-key failure, not as a validation
response (third conjunct — no existence lookup of its own), while the update
path rejects the same invalid date up front (fourth conjunct). -/
theorem c7_create_path_storage_only (dec : String → RawToken) (secret : String)
    (now : Nat) (st : ServerState) (h : Option String) (b : InvigBody) (u : Claims)
    (eid sid : Nat) (d sess : String)
    (hacc : authenticateToken dec secret now h = .accept u)
    (hrole : u.role = "admin" ∨ u.role = "coordinator")
    (heid : b.examinerId = some eid) (heid0 : eid ≠ 0)
    (hsid : b.schoolId = some sid) (hsid0 : sid ≠ 0)
    (hd : b.examDate = some d) (hd0 : d ≠ "")
    (hsess : b.examSession = some sess) (hsess0 : sess ≠ "") :
    postInvigilation dec secret now st h b
      = (match addInvigilationAssignment st eid sid d sess b.subjectId with
         | .error e => (.err 500 e, st)
         | .ok (a, st1) => (.ok 201 a, st1)) ∧
    (st.examiners.any (fun x => x.examinerId == eid) = true →
      st.schools.contains sid = true → fkSubject st b.subjectId = true →
      postInvigilation dec secret now st h b
        = (.ok 201 ⟨st.nextAssignmentId, eid, sid, d, sess, b.subjectId⟩,
           { st with
               assignments := st.assignments ++ [⟨st.nextAssignmentId, eid, sid, d, sess, b.subjectId⟩],
               nextAssignmentId := st.nextAssignmentId + 1 })) ∧
    (st.examiners.any (fun x => x.examinerId == eid) = false →
      postInvigilation dec secret now st h b
        = (.err 500 "foreign key violation", st)) ∧
    (∀ subId, b.subjectId = some subId → subId ≠ 0 → isValidDate d = false →
      ∀ id, putInvigilationId dec secret now st h id b
        = (.err 400 "Invalid exam date format. Use YYYY-MM-DD.", st)) := by
  have hrc : authorizeRole ["admin", "coordinator"] (some u) = none := by
    rcases hrole with hr | hr <;> simp [authorizeRole, hr]
  have hfields : ((if natFalsy b.examinerId = true then ["examinerId"] else []) ++
      (if natFalsy b.schoolId = true then ["schoolId"] else []) ++
      (if strFalsy b.examDate = true then ["examDate"] else []) ++
      (if strFalsy b.examSession = true then ["examSession"] else [])) = [] := by
    simp [heid, hsid, hd, hsess, natFalsy, strFalsy, heid0, hsid0, hd0, hsess0]
  refine ⟨?_, ?_, ?_, ?_⟩
  · simp [postInvigilation, withAuthRole, hacc, hrc, heid, hsid, hd, hsess,
      natFalsy, strFalsy, heid0, hsid0, hd0, hsess0]
  · intro hex hsch hsub
    simp at hsch
    simp [postInvigilation, withAuthRole, hacc, hrc, heid, hsid, hd, hsess,
      natFalsy, strFalsy, heid0, hsid0, hd0, hsess0,
      addInvigilationAssignment, hex, hsch, hsub]
  · intro hex
    simp [postInvigilation, withAuthRole, hacc, hrc, heid, hsid, hd, hsess,
      natFalsy, strFalsy, heid0, hsid0, hd0, hsess0,
      addInvigilationAssignment, hex]
  · intro subId hsub2 hsub20 hvd id
    simp [putInvigilationId, withAuthRole, hacc, hrc, heid, hsid, hd, hsess,
      natFalsy, strFalsy, heid0, hsid0, hd0, hsess0, hsub2, hsub20,
      validateAssignment, validationMsg, hvd]

/-- C7 witness: with an admin token against the fixture database, the create
path accepts the impossible date `2025-02-30` (the storage foreign keys all
resolve), while the update path rejects the very same body with the date
validation error. -/
theorem c7_create_path_storage_only_witness :
    (stFix.examiners.any (fun x => x.examinerId == 1) = true ∧
        stFix.schools.contains 1 = true ∧ fkSubject stFix (some 1) = true ∧
        isValidDate "2025-02-30" = false) ∧
    postInvigilation decAd "s" 0 stFix (some "Bearer t")
        ⟨some 1, some 1, some 1, some "2025-02-30", some "Morning"⟩
      = (.ok 201 ⟨stFix.nextAssignmentId, 1, 1, "2025-02-30", "Morning", some 1⟩,
         { stFix with
             assignments := stFix.assignments ++ [⟨stFix.nextAssignmentId, 1, 1, "2025-02-30", "Morning", some 1⟩],
             nextAssignmentId := stFix.nextAssignmentId + 1 }) ∧
    putInvigilationId decAd "s" 0 stFix (some "Bearer t") 1
        ⟨some 1, some 1, some 1, some "2025-02-30", some "Morning"⟩
      = (.err 400 "Invalid exam date format. Use YYYY-MM-DD.", stFix) := by
  refine ⟨⟨by decide, by decide, by decide, by decide⟩, ?_, ?_⟩
  · exact (c7_create_path_storage_only decAd "s" 0 stFix (some "Bearer t")
      ⟨some 1, some 1, some 1, some "2025-02-30", some "Morning"⟩ adClaims 1 1
      "2025-02-30" "Morning" (by decide) (Or.inl rfl) rfl (by decide) rfl (by decide)
      rfl (by decide) rfl (by decide)).2.1 (by decide) (by decide) (by decide)
  · exact (c7_create_path_storage_only decAd "s" 0 stFix (some "Bearer t")
      ⟨some 1, some 1, some 1, some "2025-02-30", some "Morning"⟩ adClaims 1 1
      "2025-02-30" "Morning" (by decide) (Or.inl rfl) rfl (by decide) rfl (by decide)
      rfl (by decide) rfl (by decide)).2.2.2 1 rfl (by decide) (by decide) 1

/-! ### C10 — silent examiner creation at registration -/

/-- C10 counterexample: the claim concludes that every successfully registered
examiner-role user carries a non-null examiner reference.  A registration that
simply omits the role field succeeds, records role `examiner` (the default),
and leaves the examiner reference null — the auto-creation branch tests the
raw supplied role for string equality with `examiner`, which `undefined`
fails. -/
theorem c10_counterexample :
    register bhFix stEmpty ⟨some "u1", some "u1@x.com", some "secret1", none, none, none⟩
      = (.ok 201 ⟨1, "u1", "u1@x.com", "secret1#", "examiner", none, none, true, none⟩,
         ⟨[⟨1, "u1", "u1@x.com", "secret1#", "examiner", none, none, true, none⟩],
          [], [1], [1], [], [], [], 2, 1, 1, 2, 1⟩) ∧
    (⟨1, "u1", "u1@x.com", "secret1#", "examiner", none, none, true, none⟩ : User).role
      = "examiner" ∧
    (⟨1, "u1", "u1@x.com", "secret1#", "examiner", none, none, true, none⟩ : User).examinerId
      = none := by
  decide

/-- C10 (amended): when the registration body carries the role string
`examiner` explicitly and no truthy examiner reference, a brand-new examiner
row — named after the username, with school `schoolId || 1` and subject
hard-coded to 1 — is silently inserted and linked, so the created user's
examiner reference is non-null; a registration that omits the role still
records role `examiner` but keeps a null examiner reference. -/
theorem c10_examiner_autocreate (bhash : String → String) (st st1 : ServerState)
    (b : RegisterBody) (u : User)
    (hreg : register bhash st b = (.ok 201 u, st1))
    (hrole : b.role = some "examiner") (heid : natFalsy b.examinerId = true) :
    u.examinerId = some st.nextExaminerId ∧
    u.role = "examiner" ∧
    ∃ ex ∈ st1.examiners, ex.examinerId = st.nextExaminerId ∧
      ex.examinerName = u.username ∧ ex.schoolId = some (natOr b.schoolId 1) ∧
      ex.subjectId = some 1 := by
  obtain ⟨-, -, -, -, -, -, hrole2, -, -, hcond⟩ := register_ok_inv hreg
  have hc : (b.role == some "examiner" && natFalsy b.examinerId) = true := by
    simp [hrole, heid]
  obtain ⟨h1, h2⟩ := hcond hc
  refine ⟨h1, ?_, h2⟩
  rw [hrole2, hrole]
  rfl

/-- C10 witness: a registration explicitly carrying role `examiner` and no
examiner reference, evaluated concretely — the created user is linked to the
freshly inserted examiner row named after the username. -/
theorem c10_examiner_autocreate_witness :
    register bhFix stEmpty
        ⟨some "ex1", some "ex1@x.com", some "secret1", some "examiner", none, none⟩
      = (.ok 201 ⟨1, "ex1", "ex1@x.com", "secret1#", "examiner", some 1, none, true, none⟩,
         ⟨[⟨1, "ex1", "ex1@x.com", "secret1#", "examiner", some 1, none, true, none⟩],
          [⟨1, "ex1", some 1, some 1, some "ex1@x.com"⟩], [1], [1], [], [], [],
          2, 2, 1, 2, 1⟩) ∧
    ((⟨1, "ex1", "ex1@x.com", "secret1#", "examiner", some 1, none, true, none⟩ : User).examinerId
        = some stEmpty.nextExaminerId ∧
     (⟨1, "ex1", "ex1@x.com", "secret1#", "examiner", some 1, none, true, none⟩ : User).role
        = "examiner" ∧
     ∃ ex ∈ (⟨[⟨1, "ex1", "ex1@x.com", "secret1#", "examiner", some 1, none, true, none⟩],
          [⟨1, "ex1", some 1, some 1, some "ex1@x.com"⟩], [1], [1], [], [], [],
          2, 2, 1, 2, 1⟩ : ServerState).examiners,
        ex.examinerId = stEmpty.nextExaminerId ∧
        ex.examinerName
          = (⟨1, "ex1", "ex1@x.com", "secret1#", "examiner", some 1, none, true, none⟩
              : User).username ∧
        ex.schoolId = some (natOr none 1) ∧ ex.subjectId = some 1) :=
  ⟨by decide,
   c10_examiner_autocreate bhFix stEmpty
     ⟨[⟨1, "ex1", "ex1@x.com", "secret1#", "examiner", some 1, none, true, none⟩],
      [⟨1, "ex1", some 1, some 1, some "ex1@x.com"⟩], [1], [1], [], [], [],
      2, 2, 1, 2, 1⟩
     ⟨some "ex1", some "ex1@x.com", some "secret1", some "examiner", none, none⟩
     ⟨1, "ex1", "ex1@x.com", "secret1#", "examiner", some 1, none, true, none⟩
     (by decide) rfl rfl⟩

end CBSE
